import Mathlib

/-!
Verification development for the SmallBiz map-hover service (src/main.py).

The Python source is shallowly embedded below.  Conventions used throughout:

* Python floats (coordinates, timestamps) are modelled as rationals.
* Python dicts are modelled as association lists with unique keys, in
  insertion order; dict assignment is replace-in-place-or-append.
* Code that can raise is modelled in the `Except` monad; a raised Python
  exception is an `Exc` value carrying the exception class name and message.
* The five source adapters perform HTTP calls; inside the aggregator they are
  abstracted as arbitrary behaviours (an adapter either returns a value of its
  documented Python return type or raises), which is exactly the interface the
  aggregator sees through `safe_call`.
-/

/-- JSON values, as serialized by the endpoint (JSONResponse). -/
inductive Json where
  | null : Json
  | str (s : String) : Json
  | int (n : ℤ) : Json
  | num (q : ℚ) : Json
  | arr (xs : List Json) : Json
  | obj (fields : List (String × Json)) : Json

/-- First-match association-list lookup (Python dict indexing / `.get`). -/
def assocFind {κ ν : Type} [DecidableEq κ] : List (κ × ν) → κ → Option ν
  | [], _ => none
  | (a, b) :: t, k => if a = k then some b else assocFind t k

/-- `optOr a b` is `a` unless `a` is `none`. -/
def optOr {α : Type} : Option α → Option α → Option α
  | some v, _ => some v
  | none, b => b

/-- Field lookup in a serialized JSON object. -/
def jGet (j : Json) (k : String) : Option Json :=
  match j with
  | .obj l => assocFind l k
  | _ => none

/-- The key list of a serialized JSON object. -/
def keysOf (j : Json) : List String :=
  match j with
  | .obj l => l.map (fun p => p.1)
  | _ => []

/-- Whether a serialized JSON object carries a key at all. -/
def hasKey (j : Json) (k : String) : Bool :=
  match j with
  | .obj l => (assocFind l k).isSome
  | _ => false

/-- The `census` member of a bundle (`Json.null` when the bundle is not an
object, which never happens for `api_features` output). -/
def censusField (j : Json) : Json :=
  (jGet j "census").getD Json.null

/-- Lookup of one entry of the `notes` member of a bundle. -/
def noteLookup (j : Json) (k : String) : Option Json :=
  match jGet j "notes" with
  | some n => jGet n k
  | none => none

/-- A raised Python exception: class name and message. -/
structure Exc where
  name : String
  msg : String

/-- Result of running a fallible piece of Python code. -/
abbrev Res (α : Type) := Except Exc α

/-- `resOk` is true on a non-raising result. -/
def resOk {α : Type} : Res α → Bool
  | .ok _ => true
  | .error _ => false

/-- The diagnostic string built by `safe_call` for a caught exception,
from main.py line 77: the exception class name, a colon, and the message
truncated to 180 characters. -/
def excNote (e : Exc) : String :=
  e.name ++ (": " ++ e.msg.take 180)

/-- main.py lines 69-77 (`safe_call`): run `fn`; on success pair the value
with `None`, on any exception pair the supplied default with a diagnostic. -/
def safe_call {α : Type} (fn : Res α) (default : α) : α × Option String :=
  match fn with
  | .ok v => (v, none)
  | .error e => (default, some (excNote e))

/-- main.py lines 33-40 (`RateLimiter.wait`), over a virtual clock.  The state
is the `_timestamps` list in append (chronological) order; `now` is the value
of `time.time()` on entry.  Returns the wall-clock time at which the call
returns together with the new `_timestamps` list: the list is pruned to the
trailing window, then if it is at capacity the caller sleeps until the oldest
retained timestamp ages out, and finally the return time is appended. -/
def rlWait (calls : ℕ) (period : ℚ) (st : List ℚ) (now : ℚ) : ℚ × List ℚ :=
  let ts := st.filter (fun t => decide (now - t < period))
  if calls ≤ ts.length then
    let sleepFor := period - (now - ts.headD 0)
    let ret := now + max sleepFor 0
    (ret, ts ++ [ret])
  else
    (now, ts ++ [now])

/-- First of three back-to-back `wait` calls on a fresh limiter with
`calls=2, period_sec=1`, starting at time `t0`. -/
def rlCall1 (t0 : ℚ) : ℚ × List ℚ := rlWait 2 1 [] t0

/-- Second back-to-back `wait` call (starts the moment the first returns). -/
def rlCall2 (t0 : ℚ) : ℚ × List ℚ := rlWait 2 1 (rlCall1 t0).2 (rlCall1 t0).1

/-- Third back-to-back `wait` call. -/
def rlCall3 (t0 : ℚ) : ℚ × List ℚ := rlWait 2 1 (rlCall2 t0).2 (rlCall2 t0).1

/-- Number of recorded timestamps falling inside the trailing window
`(x - p, x]`. -/
def windowCount (p x : ℚ) : List ℚ → ℕ
  | [] => 0
  | t :: ts => (if x - p < t ∧ t ≤ x then 1 else 0) + windowCount p x ts

/-- Python `round` to an integer: round half to even (banker's rounding),
which is what `round(x, n)` applies at the n-th decimal digit. -/
def roundHalfEven (q : ℚ) : ℤ :=
  let n := ⌊q⌋
  let r := q - n
  if r < 1/2 then n
  else if 1/2 < r then n + 1
  else if n % 2 = 0 then n else n + 1

/-- Python `round(q, ndigits)` on the exact rational value of the float. -/
def pyRound (q : ℚ) (ndigits : ℕ) : ℚ :=
  (roundHalfEven (q * (10 : ℚ) ^ ndigits) : ℚ) / (10 : ℚ) ^ ndigits

/-- main.py lines 43-45 (`_round_key`): quantize a coordinate pair to the
3-decimal grid. -/
def round_key (lat lon : ℚ) : ℚ × ℚ := (pyRound lat 3, pyRound lon 3)

/-- An HTTP response as seen by `request_json` after the transport call:
the status code, the raw body text, and the result of attempting to parse
the body as JSON (`none` when `r.json()` raises). -/
structure HttpResponse where
  status : ℕ
  body : String
  parsedJson : Option Json

/-- main.py lines 48-66 (`request_json`), given a received response: raise
`ApiError` on a status of 400 or more, otherwise return the parsed JSON
body, raising `ApiError` when the body does not parse. -/
def request_json (r : HttpResponse) : Res Json :=
  if 400 ≤ r.status then
    .error ⟨"ApiError", "HTTP " ++ toString r.status ++ ": " ++ r.body.take 200⟩
  else
    match r.parsedJson with
    | some j => .ok j
    | none => .error ⟨"ApiError", "Non-JSON response | body=" ++ r.body.take 200⟩

/-- State of one `functools.lru_cache(maxsize=...)` instance: bounded
capacity and the entry list in most-recently-used-first order. -/
structure LruCache (κ ν : Type) where
  maxsize : ℕ
  entries : List (κ × ν)

/-- One call through an `lru_cache`-wrapped function: on a hit, return the
memoized value and refresh its recency without running `f`; on a miss, run
`f`; a raising `f` leaves the cache unchanged (lru_cache never memoizes
exceptions), a successful `f` inserts the entry at the front and evicts the
least recently used entry when over capacity.  The boolean records whether
the underlying computation ran. -/
def cacheCall {κ ν : Type} [DecidableEq κ] (f : κ → Res ν) (c : LruCache κ ν)
    (k : κ) : Res ν × LruCache κ ν × Bool :=
  match assocFind c.entries k with
  | some v => (.ok v, ⟨c.maxsize, (k, v) :: c.entries.filter (fun p => decide (p.1 ≠ k))⟩, false)
  | none =>
    match f k with
    | .error e => (.error e, c, true)
    | .ok v => (.ok v, ⟨c.maxsize, ((k, v) :: c.entries).take c.maxsize⟩, true)

/-- Run a sequence of cached calls, returning the final cache state and the
keys (in order, with multiplicity) on which the underlying computation ran. -/
def runTrace {κ ν : Type} [DecidableEq κ] (f : κ → Res ν) :
    LruCache κ ν → List κ → LruCache κ ν × List κ
  | c, [] => (c, [])
  | c, k :: ks =>
    let step := cacheCall f c k
    let rest := runTrace f step.2.1 ks
    (rest.1, (if step.2.2 then [k] else []) ++ rest.2)

/-- A computation that always succeeds, for exercising the cache model. -/
def exF : ℕ → Res ℕ := fun _ => .ok 0

/-- A computation that always raises, for exercising the cache model. -/
def exFerr : ℕ → Res ℕ := fun _ => .error ⟨"TransportError", "timeout"⟩

/-- One group row of the ArcGIS grouped-statistics crime response: the
`CRIME_TYPE` attribute (`none` models a missing or JSON-null label) and the
`ct` statistic. -/
structure CrimeGroup where
  crimeType : Option String
  ct : Option ℤ

/-- main.py line 250: `a.get("CRIME_TYPE") or "UNKNOWN"` — a missing, null
or empty (falsy) label is bucketed as "UNKNOWN". -/
def normKey (g : CrimeGroup) : String :=
  match g.crimeType with
  | some s => if s = "" then "UNKNOWN" else s
  | none => "UNKNOWN"

/-- main.py line 251: `int(a.get("ct") or 0)` — a missing or falsy count
becomes 0. -/
def normCt (g : CrimeGroup) : ℤ := g.ct.getD 0

/-- Python dict assignment `d[k] = v` on an insertion-ordered association
list: replace in place when the key exists, append otherwise. -/
def insertReplace {ν : Type} : List (String × ν) → String → ν → List (String × ν)
  | [], k, v => [(k, v)]
  | (a, b) :: t, k, v => if a = k then (k, v) :: t else (a, b) :: insertReplace t k v

/-- main.py lines 247-251: build `by_type` by iterating the grouped rows and
assigning `by_type[k] = int(a.get("ct") or 0)` for each one. -/
def buildByType (fs : List CrimeGroup) : List (String × ℤ) :=
  fs.foldl (fun acc g => insertReplace acc (normKey g) (normCt g)) []

/-- Return value of `crime_counts`: the dict
`{"total_last_3mo": total, "by_type": by_type}`. -/
structure CrimeVal where
  total : ℤ
  byType : List (String × ℤ)

/-- main.py lines 199-253 (`crime_counts`), parsing stage: the adapter issues
two independent upstream queries; `countField` is the `count` member of the
count-only response (`none` models a missing or null member, folded to 0 by
`or 0`) and `features` is the `features` list of the grouped-statistics
response (`none` models a missing or null member, folded to `[]`).  The total
comes only from the first response and `by_type` only from the second. -/
def crime_counts (countField : Option ℤ) (features : Option (List CrimeGroup)) : CrimeVal :=
  ⟨countField.getD 0, buildByType (features.getD [])⟩

/-- Sum of the per-type counts of a `by_type` dict. -/
def sumValues (l : List (String × ℤ)) : ℤ := (l.map (fun p => p.2)).sum

/-- Return value of `acs_features`: population and median household income,
each `none` when the corresponding ACS field failed to parse as an integer
(`to_int`, main.py lines 138-147). -/
structure AcsVal where
  population : Option ℤ
  median_household_income : Option ℤ

/-- Return value of `poi_counts`: one integer count per category. -/
structure PoiVal where
  restaurants : ℤ
  bars : ℤ
  cafes : ℤ
  shops : ℤ

/-- Return value of `transit_stub`. -/
structure TransitVal where
  nearest_stop_m : Option ℤ
  stops_within_radius : Option ℤ
  note : String

/-- main.py lines 259-265 (`transit_stub`): fixed placeholder, never raises. -/
def transit_stub : TransitVal := ⟨none, none, "GTFS not implemented yet"⟩

/-- The behaviour of the five source adapters as observed by `api_features`
for one request: each either returns a value of its Python return type or
raises.  `census_geographies` returns a `Dict[str, str]` (either the
three-key FIPS dict or `{}`); the model admits any string dict. -/
structure Behaviors where
  geocode : ℚ → ℚ → Res (List (String × String))
  acs : String → String → String → Res AcsVal
  poi : ℚ → ℚ → ℤ → Res PoiVal
  crime : ℚ → ℚ → ℤ → Res CrimeVal
  transit : ℚ → ℚ → ℤ → Res TransitVal

/-- Serialize an optional integer: Python `None` becomes JSON null. -/
def optJson (o : Option ℤ) : Json :=
  match o with
  | some n => .int n
  | none => .null

/-- The dict returned by `acs_features` (main.py lines 144-147), in its
insertion order. -/
def acsDict (a : AcsVal) : List (String × Json) :=
  [("population", optJson a.population),
   ("median_household_income", optJson a.median_household_income)]

/-- Serialized successful `poi_counts` value (main.py lines 185-190). -/
def poiJson (p : PoiVal) : Json :=
  .obj [("restaurants", .int p.restaurants), ("bars", .int p.bars),
        ("cafes", .int p.cafes), ("shops", .int p.shops)]

/-- The POI fallback dict of main.py line 291. -/
def poiDefault : Json :=
  .obj [("restaurants", .null), ("bars", .null), ("cafes", .null), ("shops", .null)]

/-- Serialized successful `crime_counts` value (main.py line 253). -/
def crimeJson (c : CrimeVal) : Json :=
  .obj [("total_last_3mo", .int c.total),
        ("by_type", .obj (c.byType.map (fun p => (p.1, Json.int p.2))))]

/-- The crime fallback dict of main.py line 296. -/
def crimeDefault : Json := .obj [("total_last_3mo", .null), ("by_type", .obj [])]

/-- Serialized successful `transit_stub` value. -/
def transitJson (t : TransitVal) : Json :=
  .obj [("nearest_stop_m", optJson t.nearest_stop_m),
        ("stops_within_radius", optJson t.stops_within_radius),
        ("note", .str t.note)]

/-- The transit fallback dict of main.py line 301 (note: it has no `note`
key). -/
def transitDefault : Json :=
  .obj [("nearest_stop_m", .null), ("stops_within_radius", .null)]

/-- Python `base.update(upd)` on insertion-ordered dicts. -/
def dictUpdate (base upd : List (String × Json)) : List (String × Json) :=
  upd.foldl (fun acc p => insertReplace acc p.1 p.2) base

/-- Python `d[k]` on a string dict: the value, or a raised `KeyError`. -/
def pyGet (d : List (String × String)) (k : String) : Res String :=
  match assocFind d k with
  | some v => .ok v
  | none => .error ⟨"KeyError", k⟩

/-- `notes[key] = note` guarded by `if note:` (Python truthiness: the entry
is recorded only when the note is neither `None` nor empty). -/
def addNote (notes : List (String × String)) (k : String) (n : Option String) :
    List (String × String) :=
  match n with
  | some s => if s = "" then notes else notes ++ [(k, s)]
  | none => notes

/-- The lambda of main.py line 286: index the geocode dict three times and
call `acs_features` (whose behaviour is `acsB`); any `KeyError` or adapter
exception propagates to the surrounding `safe_call`.  The result is the acs
dict ready for `census.update(acs)`. -/
def acsCall (acsB : String → String → String → Res AcsVal)
    (geo : List (String × String)) : Res (List (String × Json)) := do
  let s ← pyGet geo "state_fips"
  let c ← pyGet geo "county_fips"
  let t ← pyGet geo "tract"
  (acsB s c t).map acsDict

/-- The argument computation of the acs lambda alone; `acs_features` itself
is applied exactly when this succeeds (and the geocode dict was truthy). -/
def acsArgs (geo : List (String × String)) : Res (String × String × String) := do
  let s ← pyGet geo "state_fips"
  let c ← pyGet geo "county_fips"
  let t ← pyGet geo "tract"
  pure (s, c, t)

/-- The per-source pieces of one `api_features` response, plus whether
`acs_features` was actually applied. -/
structure BundleParts where
  census : Json
  poi : Json
  crime : Json
  transit : Json
  notes : List (String × String)
  acsInvokedFlag : Bool

/-- main.py lines 280-289: the geocode + demographics stage of
`api_features`: the census dict under construction, the notes accumulated so
far (census_geo and census_acs entries only), and whether `acs_features` was
applied.  `census = dict(geo)`; the ACS branch runs only when the geocode
dict is truthy (non-empty). -/
def censusStep (latK lonK : ℚ) (geocodeB : ℚ → ℚ → Res (List (String × String)))
    (acsB : String → String → String → Res AcsVal) :
    List (String × Json) × List (String × String) × Bool :=
  let g := safe_call (geocodeB latK lonK) []
  let geo := g.1
  let notes1 := addNote [] "census_geo" g.2
  let censusBase : List (String × Json) := geo.map (fun p => (p.1, Json.str p.2))
  if geo.isEmpty then (censusBase, notes1, false)
  else
    let a := safe_call (acsCall acsB geo) []
    (dictUpdate censusBase a.1, addNote notes1 "census_acs" a.2, resOk (acsArgs geo))

/-- main.py lines 277-303: the body of `api_features` between quantization
and response assembly, one `safe_call` per source in program order. -/
def computeParts (latK lonK : ℚ) (radius : ℤ) (B : Behaviors) : BundleParts :=
  let cs := censusStep latK lonK B.geocode B.acs
  let p := safe_call ((B.poi latK lonK radius).map poiJson) poiDefault
  let notes3 := addNote cs.2.1 "poi" p.2
  let c := safe_call ((B.crime latK lonK radius).map crimeJson) crimeDefault
  let notes4 := addNote notes3 "crime" c.2
  let t := safe_call ((B.transit latK lonK radius).map transitJson) transitDefault
  let notes5 := addNote notes4 "transit" t.2
  ⟨.obj cs.1, p.1, c.1, t.1, notes5, cs.2.2⟩

/-- main.py lines 271-316 (`api_features`): quantize once, fan out through
`safe_call`, and assemble the serialized bundle in the literal key order of
lines 305-316. -/
def api_features (lat lon : ℚ) (radius : ℤ) (B : Behaviors) : Json :=
  let k := round_key lat lon
  let P := computeParts k.1 k.2 radius B
  .obj [("lat", .num lat), ("lon", .num lon), ("radius_m", .int radius),
        ("census", P.census), ("poi", P.poi), ("crime", P.crime),
        ("transit", P.transit),
        ("notes", .obj (P.notes.map (fun p => (p.1, Json.str p.2))))]

/-- Whether `acs_features` is applied while handling the given request. -/
def acsInvoked (lat lon : ℚ) (radius : ℤ) (B : Behaviors) : Bool :=
  (computeParts (round_key lat lon).1 (round_key lat lon).2 radius B).acsInvokedFlag

/-! ## Generic lemmas about the dict and option helpers -/

theorem optOr_none {α : Type} (a : Option α) : optOr a none = a := by
  cases a <;> rfl

theorem assocFind_append {κ ν : Type} [DecidableEq κ] (l1 l2 : List (κ × ν)) (k : κ) :
    assocFind (l1 ++ l2) k = optOr (assocFind l1 k) (assocFind l2 k) := by
  induction l1 with
  | nil => simp [assocFind, optOr]
  | cons p t ih =>
    rcases p with ⟨a, b⟩
    by_cases h : a = k <;> simp [assocFind, h, ih, optOr]

theorem assocFind_eq_none {κ ν : Type} [DecidableEq κ] {l : List (κ × ν)} {k : κ}
    (h : k ∉ l.map Prod.fst) : assocFind l k = none := by
  induction l with
  | nil => rfl
  | cons p t ih =>
    simp only [List.map_cons, List.mem_cons] at h
    push_neg at h
    rcases p with ⟨a, b⟩
    simp only [assocFind]
    rw [if_neg (fun hh => h.1 hh.symm)]
    exact ih h.2

theorem assocFind_insertReplace_self {ν : Type} (l : List (String × ν)) (k : String)
    (v : ν) : assocFind (insertReplace l k v) k = some v := by
  induction l with
  | nil => simp [insertReplace, assocFind]
  | cons p t ih =>
    rcases p with ⟨a, b⟩
    by_cases h : a = k <;> simp [insertReplace, h, assocFind, ih]

theorem assocFind_insertReplace_ne {ν : Type} (l : List (String × ν)) (k k2 : String)
    (v : ν) (h : k ≠ k2) : assocFind (insertReplace l k2 v) k = assocFind l k := by
  have h2 : k2 ≠ k := fun hh => h hh.symm
  induction l with
  | nil => simp [insertReplace, assocFind, h2]
  | cons p t ih =>
    rcases p with ⟨a, b⟩
    by_cases ha : a = k2
    · subst ha
      simp [insertReplace, assocFind, h2]
    · simp only [insertReplace]
      rw [if_neg ha]
      by_cases hk : a = k <;> simp [assocFind, hk, ih]

theorem insertReplace_fresh {ν : Type} (l : List (String × ν)) (k : String) (v : ν)
    (h : k ∉ l.map Prod.fst) : insertReplace l k v = l ++ [(k, v)] := by
  induction l with
  | nil => rfl
  | cons p t ih =>
    simp only [List.map_cons, List.mem_cons] at h
    push_neg at h
    rcases p with ⟨a, b⟩
    simp only [insertReplace]
    rw [if_neg (fun hh => h.1 hh.symm)]
    rw [ih h.2]
    simp

/-! ## C2: totality and structural completeness of the bundle -/

/-- C2: `api_features` is total: for every input with radius in [100, 2000]
and every behaviour of the five source adapters (including any exception any
of them raises — the model's `Behaviors` ranges over all of these), it
returns (rather than raises: the embedding is a total function on all
behaviours) a bundle with exactly the top-level keys lat, lon, radius_m,
census, poi, crime, transit, notes. -/
theorem c2_bundle_total (lat lon : ℚ) (radius : ℤ) (B : Behaviors)
    (_h1 : 100 ≤ radius) (_h2 : radius ≤ 2000) :
    keysOf (api_features lat lon radius B) =
      ["lat", "lon", "radius_m", "census", "poi", "crime", "transit", "notes"] := rfl

/-- A fully failing set of adapter behaviours (transit cannot fail in the
source, so it succeeds with the stub). -/
def allFailB : Behaviors :=
  ⟨fun _ _ => .error ⟨"ApiError", "HTTP 500"⟩,
   fun _ _ _ => .error ⟨"ApiError", "HTTP 500"⟩,
   fun _ _ _ => .error ⟨"ApiError", "HTTP 500"⟩,
   fun _ _ _ => .error ⟨"ApiError", "HTTP 500"⟩,
   fun _ _ _ => .ok transit_stub⟩

/-- Witness for C2 at a concrete input with every fallible adapter failing. -/
theorem c2_witness :
    (100 : ℤ) ≤ 500 ∧ (500 : ℤ) ≤ 2000 ∧
      keysOf (api_features 0 0 500 allFailB) =
        ["lat", "lon", "radius_m", "census", "poi", "crime", "transit", "notes"] :=
  ⟨by norm_num, by norm_num, c2_bundle_total 0 0 500 allFailB (by norm_num) (by norm_num)⟩

/-! ## C10: request_json error condition -/

/-- C10: `request_json` raises (`ApiError`) exactly when the HTTP status is
at least 400 or the body does not parse as JSON; every response with status
below 400 (3xx included) and a JSON body yields the parsed body. -/
theorem c10_request_json (r : HttpResponse) :
    (resOk (request_json r) = false ↔ (400 ≤ r.status ∨ r.parsedJson = none)) ∧
    (∀ j, r.status < 400 → r.parsedJson = some j → request_json r = .ok j) := by
  constructor
  · by_cases h4 : 400 ≤ r.status
    · simp [request_json, h4, resOk]
    · cases hp : r.parsedJson <;> simp [request_json, h4, hp, resOk]
  · intro j h4 hp
    simp [request_json, Nat.not_le.mpr h4, hp]

/-- Witness for C10: a 302 response with a JSON body counts as success; a
404 raises. -/
theorem c10_witness :
    request_json ⟨302, "", some (Json.int 1)⟩ = .ok (Json.int 1) ∧
      resOk (request_json ⟨404, "not found", none⟩) = false :=
  ⟨(c10_request_json ⟨302, "", some (Json.int 1)⟩).2 (Json.int 1) (by norm_num) rfl,
   (c10_request_json ⟨404, "not found", none⟩).1.mpr (Or.inl (by norm_num))⟩

/-! ## C7: grid quantization -/

/-- C7 counterexample: 0.0004° and 0.0006° differ by 0.0002° ≤ 0.0005° (and
the longitudes are equal), yet they round to different grid keys (0.000
versus 0.001), so pairwise proximity within 0.0005° in both axes does not
imply an identical GridKey. -/
theorem c7_counterexample :
    |(4/10000 : ℚ) - 6/10000| ≤ 5/10000 ∧ |(0 : ℚ) - 0| ≤ 5/10000 ∧
      round_key (4/10000) 0 ≠ round_key (6/10000) 0 := by
  refine ⟨by rw [abs_le]; constructor <;> norm_num, by norm_num, ?_⟩
  norm_num [round_key, pyRound, roundHalfEven, Prod.ext_iff]

theorem roundHalfEven_eq {q : ℚ} {k : ℤ} (h : |q - (k : ℚ)| < 1/2) :
    roundHalfEven q = k := by
  rw [abs_lt] at h
  have hf1 : ((⌊q⌋ : ℤ) : ℚ) ≤ q := Int.floor_le q
  have hf2 : q < (⌊q⌋ : ℚ) + 1 := Int.lt_floor_add_one q
  have hk1 : ((⌊q⌋ : ℤ) : ℚ) < (k : ℚ) + 1 := by linarith [h.1, h.2]
  have hk2 : (k : ℚ) < ((⌊q⌋ : ℤ) : ℚ) + 2 := by linarith [h.1, h.2]
  have hi1 : ⌊q⌋ < k + 1 := by exact_mod_cast hk1
  have hi2 : k < ⌊q⌋ + 2 := by exact_mod_cast hk2
  have hcase : ⌊q⌋ = k ∨ ⌊q⌋ = k - 1 := by omega
  simp only [roundHalfEven]
  rcases hcase with hq | hq
  · rw [hq, if_pos (by exact h.2)]
  · have e1 : ((k - 1 : ℤ) : ℚ) = (k : ℚ) - 1 := by push_cast; ring
    rw [hq, e1, if_neg (by linarith [h.1]), if_pos (by linarith [h.1])]
    omega

theorem pyRound_eq_of_near {x : ℚ} {k : ℤ} (h : |x - (k : ℚ) / 1000| < 1/2000) :
    pyRound x 3 = (k : ℚ) / 1000 := by
  have h2 : |x * (10 : ℚ) ^ 3 - (k : ℚ)| < 1/2 := by
    have e : x * (10 : ℚ) ^ 3 - (k : ℚ) = (x - (k : ℚ) / 1000) * 1000 := by ring
    rw [e, abs_mul]
    have e2 : |(1000 : ℚ)| = 1000 := by norm_num
    rw [e2]
    linarith [h]
  simp only [pyRound]
  rw [roundHalfEven_eq h2]
  norm_num

/-- C7 amended: two raw coordinate pairs lying strictly within the same
3-decimal grid cell — each axis strictly within 0.0005° of the same grid
point k/1000 — are quantized by `round_key` to the same GridKey. -/
theorem c7_same_cell (lat lat2 lon lon2 : ℚ) (ka kb : ℤ)
    (h1 : |lat - (ka : ℚ) / 1000| < 1/2000) (h2 : |lat2 - (ka : ℚ) / 1000| < 1/2000)
    (h3 : |lon - (kb : ℚ) / 1000| < 1/2000) (h4 : |lon2 - (kb : ℚ) / 1000| < 1/2000) :
    round_key lat lon = round_key lat2 lon2 := by
  unfold round_key
  rw [pyRound_eq_of_near h1, pyRound_eq_of_near h2,
      pyRound_eq_of_near h3, pyRound_eq_of_near h4]

/-- Witness for C7 at two concrete coordinate pairs in the cell of (0, 0). -/
theorem c7_witness : round_key (4/10000) 0 = round_key (-4/10000) 0 :=
  c7_same_cell (4/10000) (-4/10000) 0 0 0 0
    (by rw [abs_lt]; constructor <;> norm_num)
    (by rw [abs_lt]; constructor <;> norm_num)
    (by rw [abs_lt]; constructor <;> norm_num)
    (by rw [abs_lt]; constructor <;> norm_num)

/-! ## C8: crime total versus by_type sum -/

/-- C8 counterexample: `crime_counts` accepts the pair of upstream responses
(count-only response with count 5, grouped response with an empty features
list); the returned total is 5 while the by_type sum is 0, so the equality
claimed for every pair of accepted responses fails. -/
theorem c8_counterexample :
    (crime_counts (some 5) (some [])).total
      ≠ sumValues (crime_counts (some 5) (some [])).byType := by
  norm_num [crime_counts, buildByType, sumValues]

theorem foldl_insertReplace_fresh :
    ∀ (fs : List CrimeGroup) (acc : List (String × ℤ)),
      (fs.map normKey).Nodup → (∀ g ∈ fs, normKey g ∉ acc.map Prod.fst) →
      fs.foldl (fun a g => insertReplace a (normKey g) (normCt g)) acc
        = acc ++ fs.map (fun g => (normKey g, normCt g)) := by
  intro fs
  induction fs with
  | nil => intro acc _ _; simp
  | cons g t ih =>
    intro acc hnd hfresh
    simp only [List.map_cons, List.nodup_cons] at hnd
    have hstep : insertReplace acc (normKey g) (normCt g) = acc ++ [(normKey g, normCt g)] :=
      insertReplace_fresh acc (normKey g) (normCt g) (hfresh g (by simp))
    simp only [List.foldl_cons, hstep]
    rw [ih (acc ++ [(normKey g, normCt g)]) hnd.2 ?fresh]
    · simp
    case fresh =>
      intro g2 hg2
      simp only [List.map_append, List.mem_append, List.map_cons]
      push_neg
      refine ⟨hfresh g2 (by simp [hg2]), ?_⟩
      simp only [List.map_nil, List.mem_singleton]
      intro hcontra
      exact hnd.1 (hcontra ▸ List.mem_map_of_mem normKey hg2)

theorem buildByType_nodup_keys (fs : List CrimeGroup)
    (h : (fs.map normKey).Nodup) :
    buildByType fs = fs.map (fun g => (normKey g, normCt g)) := by
  have := foldl_insertReplace_fresh fs [] h (by simp)
  simpa [buildByType] using this

/-- C8 amended: the total comes from the count-only response alone and
by_type from the grouped response alone, so the claimed equality is not
guaranteed for every accepted pair of responses; it does hold whenever the
upstream pair is consistent: if the grouped rows carry pairwise distinct
normalized labels and the count-only count equals the sum of the grouped
counts, then the returned total equals the sum of the by_type values (a
sufficient condition — an inconsistent pair can still coincide
numerically). -/
theorem c8_total_consistency (countField : Option ℤ)
    (features : Option (List CrimeGroup))
    (hnd : ((features.getD []).map normKey).Nodup)
    (hsum : countField.getD 0 = ((features.getD []).map normCt).sum) :
    (crime_counts countField features).total
      = sumValues (crime_counts countField features).byType := by
  simp only [crime_counts, sumValues]
  rw [buildByType_nodup_keys _ hnd]
  simp only [List.map_map]
  exact hsum

/-- Witness for C8 on a consistent pair of upstream responses. -/
theorem c8_witness :
    (crime_counts (some 3) (some [⟨some "A", some 1⟩, ⟨some "B", some 2⟩])).total
      = sumValues (crime_counts (some 3)
          (some [⟨some "A", some 1⟩, ⟨some "B", some 2⟩])).byType :=
  c8_total_consistency (some 3) (some [⟨some "A", some 1⟩, ⟨some "B", some 2⟩])
    (by simp [normKey]) (by simp [normCt])

/-! ## C9: unlabeled crime groups collapse into one UNKNOWN entry -/

theorem getLast?_cons_of_some {α : Type} (a x : α) (l : List α)
    (h : l.getLast? = some x) : (a :: l).getLast? = some x := by
  cases l with
  | nil => simp at h
  | cons b t => rw [List.getLast?_cons_cons]; exact h

/-- The count of the last grouped row whose normalized label is `k`
(`none` when no row normalizes to `k`). -/
def lastCt (fs : List CrimeGroup) (k : String) : Option ℤ :=
  ((fs.filter (fun g => normKey g == k)).getLast?).map normCt

theorem foldl_insertReplace_lookup :
    ∀ (fs : List CrimeGroup) (acc : List (String × ℤ)) (k : String),
      assocFind (fs.foldl (fun a g => insertReplace a (normKey g) (normCt g)) acc) k
        = optOr (lastCt fs k) (assocFind acc k) := by
  intro fs
  induction fs with
  | nil => intro acc k; simp [lastCt, optOr]
  | cons g t ih =>
    intro acc k
    simp only [List.foldl_cons]
    rw [ih]
    by_cases hk : normKey g = k
    · have hfilter : (g :: t).filter (fun g2 => normKey g2 == k)
          = g :: t.filter (fun g2 => normKey g2 == k) := by
        simp [List.filter_cons, hk]
      cases hl : (t.filter (fun g2 => normKey g2 == k)).getLast? with
      | some g2 =>
        have : lastCt (g :: t) k = some (normCt g2) := by
          simp [lastCt, hfilter, getLast?_cons_of_some g g2 _ hl]
        rw [this]
        have : lastCt t k = some (normCt g2) := by simp [lastCt, hl]
        rw [this]
        rfl
      | none =>
        have hemp : t.filter (fun g2 => normKey g2 == k) = [] :=
          List.getLast?_eq_none_iff.mp hl
        have h1 : lastCt (g :: t) k = some (normCt g) := by
          simp [lastCt, hfilter, hemp]
        have h2 : lastCt t k = none := by simp [lastCt, hemp]
        rw [h1, h2, hk]
        simp [optOr, assocFind_insertReplace_self]
    · have hfilter : (g :: t).filter (fun g2 => normKey g2 == k)
          = t.filter (fun g2 => normKey g2 == k) := by
        simp [List.filter_cons, hk]
      have : lastCt (g :: t) k = lastCt t k := by simp [lastCt, hfilter]
      rw [this, assocFind_insertReplace_ne _ _ _ _ (fun hh => hk hh.symm)]

/-- C9: every grouped row with a missing or falsy CRIME_TYPE label maps to
the single by_type key UNKNOWN, and each dict assignment overwrites the
previous one, so the UNKNOWN entry holds only the count of the last row that
normalized to UNKNOWN (in general, any by_type entry holds the count of the
last row with that normalized label); on the concrete two-row unlabeled
response the stored value is the last count 4, not the sum 7. -/
theorem c9_unknown_overwrite :
    (∀ fs : List CrimeGroup, assocFind (buildByType fs) "UNKNOWN" = lastCt fs "UNKNOWN") ∧
    normKey ⟨none, some 3⟩ = "UNKNOWN" ∧ normKey ⟨some "", some 4⟩ = "UNKNOWN" ∧
    buildByType [⟨none, some 3⟩, ⟨some "", some 4⟩] = [("UNKNOWN", 4)] ∧
    assocFind (buildByType [⟨none, some 3⟩, ⟨some "", some 4⟩]) "UNKNOWN" ≠ some (3 + 4) := by
  refine ⟨fun fs => ?_, rfl, rfl, rfl, by decide⟩
  have := foldl_insertReplace_lookup fs [] "UNKNOWN"
  simpa [buildByType, assocFind, optOr_none] using this

/-! ## Lemmas about the aggregator's notes and field structure -/

theorem assocFind_map_str (l : List (String × String)) (k : String) :
    assocFind (l.map (fun p => (p.1, Json.str p.2))) k = (assocFind l k).map Json.str := by
  induction l with
  | nil => rfl
  | cons p t ih => by_cases h : p.1 = k <;> simp [assocFind, h, ih]

theorem excNote_ne_empty (e : Exc) : excNote e ≠ "" := by
  intro h
  have h2 := congrArg String.length h
  simp only [excNote, String.length_append] at h2
  have h3 : (": ").length = 2 := rfl
  rw [h3] at h2
  simp at h2

theorem assocFind_addNote_ne (l : List (String × String)) (k k2 : String)
    (n : Option String) (h : k ≠ k2) :
    assocFind (addNote l k2 n) k = assocFind l k := by
  cases n with
  | none => rfl
  | some s =>
    by_cases hs : s = ""
    · simp [addNote, hs]
    · simp only [addNote]
      rw [if_neg hs, assocFind_append]
      have hne : k2 ≠ k := fun hh => h hh.symm
      have h0 : assocFind [(k2, s)] k = none := by simp [assocFind, hne]
      rw [h0, optOr_none]

theorem assocFind_addNote_self (l : List (String × String)) (k s : String)
    (hs : s ≠ "") (hl : assocFind l k = none) :
    assocFind (addNote l k (some s)) k = some s := by
  simp only [addNote]
  rw [if_neg hs, assocFind_append, hl]
  simp [assocFind, optOr]

/-- The geocode + demographics stage only records census_geo / census_acs
notes. -/
theorem censusStep_notes_keys (latK lonK : ℚ)
    (geocodeB : ℚ → ℚ → Res (List (String × String)))
    (acsB : String → String → String → Res AcsVal) (k : String)
    (h1 : k ≠ "census_geo") (h2 : k ≠ "census_acs") :
    assocFind (censusStep latK lonK geocodeB acsB).2.1 k = none := by
  unfold censusStep
  cases hg : geocodeB latK lonK with
  | error e =>
    simp only [safe_call]
    have : assocFind (addNote [] "census_geo" (some (excNote e))) k = none := by
      rw [assocFind_addNote_ne _ _ _ _ h1]; rfl
    simpa using this
  | ok l =>
    simp only [safe_call]
    by_cases hl : l.isEmpty
    · simp [hl, addNote, assocFind]
    · simp only [hl, if_neg, Bool.false_eq_true, if_false]
      rw [assocFind_addNote_ne _ _ _ _ h2]
      rfl

theorem api_noteLookup (lat lon : ℚ) (radius : ℤ) (B : Behaviors) (k : String) :
    noteLookup (api_features lat lon radius B) k
      = (assocFind (computeParts (round_key lat lon).1 (round_key lat lon).2 radius B).notes
          k).map Json.str := by
  show assocFind ((computeParts (round_key lat lon).1 (round_key lat lon).2 radius B).notes.map
      (fun p => (p.1, Json.str p.2))) k = _
  exact assocFind_map_str _ _

theorem api_census (lat lon : ℚ) (radius : ℤ) (B : Behaviors) :
    jGet (api_features lat lon radius B) "census"
      = some (computeParts (round_key lat lon).1 (round_key lat lon).2 radius B).census := rfl

theorem api_poi (lat lon : ℚ) (radius : ℤ) (B : Behaviors) :
    jGet (api_features lat lon radius B) "poi"
      = some (computeParts (round_key lat lon).1 (round_key lat lon).2 radius B).poi := rfl

theorem api_crime (lat lon : ℚ) (radius : ℤ) (B : Behaviors) :
    jGet (api_features lat lon radius B) "crime"
      = some (computeParts (round_key lat lon).1 (round_key lat lon).2 radius B).crime := rfl

theorem computeParts_census (latK lonK : ℚ) (radius : ℤ) (B : Behaviors) :
    (computeParts latK lonK radius B).census
      = .obj (censusStep latK lonK B.geocode B.acs).1 := rfl

theorem computeParts_poi (latK lonK : ℚ) (radius : ℤ) (B : Behaviors) :
    (computeParts latK lonK radius B).poi
      = (safe_call ((B.poi latK lonK radius).map poiJson) poiDefault).1 := rfl

theorem computeParts_crime (latK lonK : ℚ) (radius : ℤ) (B : Behaviors) :
    (computeParts latK lonK radius B).crime
      = (safe_call ((B.crime latK lonK radius).map crimeJson) crimeDefault).1 := rfl

theorem computeParts_crime_note (latK lonK : ℚ) (radius : ℤ) (B : Behaviors) (e : Exc) :
    assocFind (computeParts latK lonK radius {B with crime := fun _ _ _ => .error e}).notes
      "crime" = some (excNote e) := by
  show assocFind (addNote (addNote (addNote
      (censusStep latK lonK B.geocode B.acs).2.1 "poi"
        (safe_call ((B.poi latK lonK radius).map poiJson) poiDefault).2)
      "crime" (some (excNote e))) "transit"
      (safe_call ((B.transit latK lonK radius).map transitJson) transitDefault).2) "crime"
      = some (excNote e)
  rw [assocFind_addNote_ne _ _ _ _ (by decide)]
  refine assocFind_addNote_self _ _ _ (excNote_ne_empty e) ?_
  rw [assocFind_addNote_ne _ _ _ _ (by decide)]
  exact censusStep_notes_keys latK lonK _ _ "crime" (by decide) (by decide)

theorem computeParts_geo_empty_acs_note (latK lonK : ℚ) (radius : ℤ) (B : Behaviors) :
    assocFind (computeParts latK lonK radius {B with geocode := fun _ _ => .ok []}).notes
      "census_acs" = none := by
  show assocFind (addNote (addNote (addNote
      (censusStep latK lonK (fun _ _ => .ok []) B.acs).2.1 "poi"
        (safe_call ((B.poi latK lonK radius).map poiJson) poiDefault).2)
      "crime" (safe_call ((B.crime latK lonK radius).map crimeJson) crimeDefault).2) "transit"
      (safe_call ((B.transit latK lonK radius).map transitJson) transitDefault).2) "census_acs"
      = none
  rw [assocFind_addNote_ne _ _ _ _ (by decide), assocFind_addNote_ne _ _ _ _ (by decide),
      assocFind_addNote_ne _ _ _ _ (by decide)]
  rfl

/-! ## C1: census field presence -/

/-- C1 counterexample: when Geocode fails, the serialized census object is
the empty object: the keys population (and state_fips) are omitted
altogether, not present with a null value as the claim requires. -/
theorem c1_counterexample :
    censusField (api_features 0 0 500 allFailB) = Json.obj [] ∧
    hasKey (censusField (api_features 0 0 500 allFailB)) "population" = false ∧
    hasKey (censusField (api_features 0 0 500 allFailB)) "state_fips" = false :=
  ⟨rfl, rfl, rfl⟩

/-- The three-key FIPS dict returned by a successful non-empty geocode call
(main.py lines 106-110). -/
def geoDict (s c t : String) : List (String × String) :=
  [("state_fips", s), ("county_fips", c), ("tract", t)]

/-- C1 amended: the census object's key set varies with the failure mode:
when Geocode raises or returns the empty dict, census serializes as the
empty object (all five keys omitted); when Geocode succeeds non-empty and
the ACS call raises, census carries exactly state_fips, county_fips and
tract (population and median_household_income omitted, not null); the two
ACS keys appear exactly when the ACS call returns, and then a field that was
unparseable upstream (modelled `none`) serializes as JSON null. -/
theorem c1_census_key_presence (lat lon : ℚ) (radius : ℤ) (B : Behaviors) (e e2 : Exc)
    (s c t : String) (p m : Option ℤ) :
    censusField (api_features lat lon radius {B with geocode := fun _ _ => .error e})
        = .obj []
  ∧ censusField (api_features lat lon radius {B with geocode := fun _ _ => .ok []})
        = .obj []
  ∧ censusField (api_features lat lon radius
        {B with geocode := fun _ _ => .ok (geoDict s c t), acs := fun _ _ _ => .error e2})
        = .obj [("state_fips", .str s), ("county_fips", .str c), ("tract", .str t)]
  ∧ hasKey (censusField (api_features lat lon radius
        {B with geocode := fun _ _ => .ok (geoDict s c t), acs := fun _ _ _ => .error e2}))
        "population" = false
  ∧ censusField (api_features lat lon radius
        {B with geocode := fun _ _ => .ok (geoDict s c t), acs := fun _ _ _ => .ok ⟨p, m⟩})
        = .obj [("state_fips", .str s), ("county_fips", .str c), ("tract", .str t),
                ("population", optJson p), ("median_household_income", optJson m)] :=
  ⟨rfl, rfl, rfl, rfl, rfl⟩

/-! ## C3: crime failure isolation -/

/-- C3: when the Crime adapter raises (any exception, transport errors
included), the bundle still carries crime.total_last_3mo = null with an
empty by_type map, the notes.crime entry is the non-empty diagnostic
produced by `safe_call`, and the census and poi fields are identical to what
they would have been had Crime succeeded (with any return value). -/
theorem c3_crime_isolation (lat lon : ℚ) (radius : ℤ) (B : Behaviors) (e : Exc)
    (v : CrimeVal) :
    jGet (api_features lat lon radius {B with crime := fun _ _ _ => .error e}) "crime"
        = some crimeDefault
  ∧ noteLookup (api_features lat lon radius {B with crime := fun _ _ _ => .error e}) "crime"
        = some (.str (excNote e))
  ∧ excNote e ≠ ""
  ∧ jGet (api_features lat lon radius {B with crime := fun _ _ _ => .error e}) "census"
        = jGet (api_features lat lon radius {B with crime := fun _ _ _ => .ok v}) "census"
  ∧ jGet (api_features lat lon radius {B with crime := fun _ _ _ => .error e}) "poi"
        = jGet (api_features lat lon radius {B with crime := fun _ _ _ => .ok v}) "poi" := by
  refine ⟨?_, ?_, excNote_ne_empty e, ?_, ?_⟩
  · rw [api_crime, computeParts_crime]
    rfl
  · rw [api_noteLookup, computeParts_crime_note]
    rfl
  · rw [api_census, api_census, computeParts_census, computeParts_census]
  · rw [api_poi, api_poi, computeParts_poi, computeParts_poi]

/-! ## C4: geocode-empty propagation -/

/-- C4 counterexample: with Geocode returning the empty dict, the census
member of the bundle is the empty object, so census.population is an
omitted key (lookup yields `none`), not a key present with value null as
the claim asserts. -/
theorem c4_counterexample :
    censusField (api_features 0 0 500 {allFailB with geocode := fun _ _ => .ok []})
        = Json.obj []
  ∧ jGet (censusField (api_features 0 0 500 {allFailB with geocode := fun _ _ => .ok []}))
        "population" = none
  ∧ jGet (censusField (api_features 0 0 500 {allFailB with geocode := fun _ _ => .ok []}))
        "population" ≠ some Json.null :=
  ⟨rfl, rfl, fun h => Option.noConfusion h⟩

/-- C4 amended: whenever Geocode returns an empty GeoIdentity, the
Demographics adapter is never invoked (the flag is false and the bundle does
not depend on the acs behaviour at all) and no census_acs note is produced;
however the serialized census object is empty, so population and
median_household_income are omitted keys rather than null values. -/
theorem c4_geo_empty (lat lon : ℚ) (radius : ℤ) (B : Behaviors)
    (a1 a2 : String → String → String → Res AcsVal) :
    acsInvoked lat lon radius {B with geocode := fun _ _ => .ok []} = false
  ∧ api_features lat lon radius {B with geocode := fun _ _ => .ok [], acs := a1}
      = api_features lat lon radius {B with geocode := fun _ _ => .ok [], acs := a2}
  ∧ noteLookup (api_features lat lon radius {B with geocode := fun _ _ => .ok []})
      "census_acs" = none
  ∧ censusField (api_features lat lon radius {B with geocode := fun _ _ => .ok []})
      = .obj [] := by
  refine ⟨rfl, rfl, ?_, rfl⟩
  rw [api_noteLookup, computeParts_geo_empty_acs_note]
  rfl

/-! ## C5: per-source result cache (functools.lru_cache, maxsize 20000) -/

theorem take_append_take {α : Type} (l t : List α) (m : ℕ) :
    (l ++ t.take m).take m = (l ++ t).take m := by
  rw [List.take_append_eq_append_take, List.take_append_eq_append_take, List.take_take]
  have h : min (m - l.length) m = m - l.length := Nat.min_eq_left (Nat.sub_le m l.length)
  rw [h]

theorem cacheCall_miss_ok {κ ν : Type} [DecidableEq κ] (f : κ → Res ν) (c : LruCache κ ν)
    (k : κ) (v : ν) (hk : assocFind c.entries k = none) (hf : f k = .ok v) :
    cacheCall f c k = (.ok v, ⟨c.maxsize, ((k, v) :: c.entries).take c.maxsize⟩, true) := by
  simp [cacheCall, hk, hf]

theorem runTrace_cons {κ ν : Type} [DecidableEq κ] (f : κ → Res ν) (c : LruCache κ ν)
    (k : κ) (ks : List κ) :
    runTrace f c (k :: ks)
      = ((runTrace f (cacheCall f c k).2.1 ks).1,
         (if (cacheCall f c k).2.2 then [k] else [])
           ++ (runTrace f (cacheCall f c k).2.1 ks).2) := rfl

theorem runTrace_append {κ ν : Type} [DecidableEq κ] (f : κ → Res ν) (c : LruCache κ ν)
    (xs ys : List κ) :
    runTrace f c (xs ++ ys)
      = ((runTrace f (runTrace f c xs).1 ys).1,
         (runTrace f c xs).2 ++ (runTrace f (runTrace f c xs).1 ys).2) := by
  induction xs generalizing c with
  | nil => simp [runTrace]
  | cons k t ih => simp [runTrace_cons, ih, List.append_assoc]

/-- Running a nodup sequence of keys that all miss an under-capacity cache
makes every call run the computation and leaves the most-recent `maxsize`
entries. -/
theorem runTrace_fresh {κ ν : Type} [DecidableEq κ] (f : κ → Res ν) (g : κ → ν)
    (hf : ∀ k, f k = .ok (g k)) :
    ∀ (ks : List κ) (m : ℕ) (es : List (κ × ν)), ks.Nodup →
      (∀ k ∈ ks, k ∉ es.map Prod.fst) → es.length ≤ m →
      runTrace f ⟨m, es⟩ ks
        = (⟨m, ((ks.map (fun k => (k, g k))).reverse ++ es).take m⟩, ks) := by
  intro ks
  induction ks with
  | nil => intro m es _ _ hlen; simp [runTrace, List.take_of_length_le hlen]
  | cons k t ih =>
    intro m es hnd hfresh hlen
    have hk : assocFind es k = none := assocFind_eq_none (hfresh k (by simp))
    rw [runTrace_cons, cacheCall_miss_ok f ⟨m, es⟩ k (g k) hk (hf k)]
    simp only [List.nodup_cons] at hnd
    have hfresh2 : ∀ k2 ∈ t, k2 ∉ ((((k, g k) :: es).take m).map Prod.fst) := by
      intro k2 hk2 hmem
      have hmem2 : k2 ∈ ((k, g k) :: es).map Prod.fst := by
        obtain ⟨p, hp, hpe⟩ := List.mem_map.mp hmem
        exact hpe ▸ List.mem_map_of_mem Prod.fst (List.take_subset _ _ hp)
      simp only [List.map_cons, List.mem_cons] at hmem2
      rcases hmem2 with hmm | hmm
      · exact hnd.1 (hmm ▸ hk2)
      · exact hfresh k2 (by simp [hk2]) hmm
    have hlen2 : ((((k, g k) :: es).take m).length ≤ m) := by
      rw [List.length_take]
      exact Nat.min_le_left _ _
    rw [ih m (((k, g k) :: es).take m) hnd.2 hfresh2 hlen2]
    simp only [if_true, Prod.mk.injEq]
    refine ⟨?_, by simp⟩
    rw [take_append_take]
    simp [List.append_assoc]

theorem runTrace_single_miss (E : List (ℕ × ℕ)) (hE : assocFind E 0 = none) :
    (runTrace exF ⟨20000, E⟩ [0]).2 = [0] := by
  rw [runTrace_cons, cacheCall_miss_ok exF ⟨20000, E⟩ 0 0 hE rfl]
  rfl

/-- A trace that caches key 0, then touches 20000 fresh keys (filling the
lru_cache to capacity and evicting key 0), then asks for key 0 again. -/
def evictTrace : List ℕ := 0 :: ((List.range 20000).map (fun i => i + 1) ++ [0])

/-- C5 counterexample: on a cache with the source's maxsize of 20000 and a
computation that always succeeds, the first call with key 0 succeeds, yet
over `evictTrace` the computation runs twice for key 0 — LRU capacity
eviction makes a later call with a successfully-cached key run the
computation again, contradicting "the computation runs exactly once per key
as long as the first call succeeded". -/
theorem c5_counterexample :
    exF 0 = .ok 0 ∧
    (runTrace exF ⟨20000, []⟩ evictTrace).2.count 0 = 2 := by
  refine ⟨rfl, ?_⟩
  set ks := (List.range 20000).map (fun i => i + 1) with hks
  have hks_nodup : ks.Nodup := (List.nodup_range 20000).map (fun a b h => by omega)
  have hks_ne0 : ∀ k ∈ ks, k ≠ 0 := by
    intro k hk
    rw [hks] at hk
    simp only [List.mem_map, List.mem_range] at hk
    obtain ⟨i, _, hie⟩ := hk
    omega
  have hc1 : cacheCall exF ⟨20000, ([] : List (ℕ × ℕ))⟩ 0 = (.ok 0, ⟨20000, [(0, 0)]⟩, true) := by
    rw [cacheCall_miss_ok exF ⟨20000, ([] : List (ℕ × ℕ))⟩ 0 0 rfl rfl,
        List.take_of_length_le (by norm_num)]
  have hrun1 : runTrace exF ⟨20000, ([] : List (ℕ × ℕ))⟩ evictTrace
      = ((runTrace exF ⟨20000, [(0, 0)]⟩ (ks ++ [0])).1,
         [0] ++ (runTrace exF ⟨20000, [(0, 0)]⟩ (ks ++ [0])).2) := by
    rw [show evictTrace = 0 :: (ks ++ [0]) from rfl, runTrace_cons, hc1]
    rfl
  have hfreshks : ∀ k ∈ ks, k ∉ ([((0 : ℕ), (0 : ℕ))].map Prod.fst) := by
    intro k hk
    simp only [List.map_cons, List.map_nil, List.mem_singleton]
    exact hks_ne0 k hk
  have hmidrun : runTrace exF ⟨20000, [((0 : ℕ), (0 : ℕ))]⟩ ks
      = (⟨20000, ((ks.map (fun k => (k, 0))).reverse ++ [(0, 0)]).take 20000⟩, ks) :=
    runTrace_fresh exF (fun _ => 0) (fun _ => rfl) ks 20000 [(0, 0)] hks_nodup hfreshks
      (by norm_num)
  have hlenE : ((ks.map (fun k => (k, (0 : ℕ)))).reverse).length = 20000 := by
    rw [List.length_reverse, List.length_map, hks, List.length_map, List.length_range]
  have htakeE : ((ks.map (fun k => (k, (0 : ℕ)))).reverse ++ [(0, 0)]).take 20000
      = (ks.map (fun k => (k, 0))).reverse := List.take_left' hlenE
  have hfinE : assocFind ((ks.map (fun k => (k, (0 : ℕ)))).reverse) 0 = none := by
    apply assocFind_eq_none
    intro hmem
    simp only [List.map_reverse, List.mem_reverse, List.map_map, List.mem_map,
      Function.comp] at hmem
    obtain ⟨a, ha, hae⟩ := hmem
    exact hks_ne0 a ha hae
  rw [hrun1]
  simp only [runTrace_append, hmidrun, htakeE, runTrace_single_miss _ hfinE]
  rw [List.count_append, List.count_append]
  have h0 : ks.count 0 = 0 := List.count_eq_zero.mpr (fun h => hks_ne0 0 h rfl)
  rw [h0]
  rfl

/-- C5 amended: per cached call on any per-source cache (lru_cache model,
the sources use maxsize 20000): a call whose key is cached returns the
memoized value without running the computation; a successful fresh call runs
the computation, caches the result (when capacity is positive an immediate
repeat is served from cache without running it again); a raising call leaves
the cache exactly unchanged, never memoizes the failure, and a repeat call
attempts the real computation again.  "Exactly once per key" holds only
until LRU capacity eviction (counterexample above). -/
theorem c5_cache_step {κ ν : Type} [DecidableEq κ] (f : κ → Res ν) (c : LruCache κ ν)
    (k : κ) (v : ν) (e : Exc) :
    (assocFind c.entries k = some v →
      (cacheCall f c k).1 = .ok v ∧ (cacheCall f c k).2.2 = false)
  ∧ (assocFind c.entries k = none → f k = .ok v → 0 < c.maxsize →
      (cacheCall f c k).1 = .ok v ∧ (cacheCall f c k).2.2 = true ∧
      (cacheCall f (cacheCall f c k).2.1 k).1 = .ok v ∧
      (cacheCall f (cacheCall f c k).2.1 k).2.2 = false)
  ∧ (assocFind c.entries k = none → f k = .error e →
      (cacheCall f c k).1 = .error e ∧ (cacheCall f c k).2.1 = c ∧
      (cacheCall f c k).2.2 = true ∧
      (cacheCall f (cacheCall f c k).2.1 k).2.2 = true) := by
  refine ⟨?_, ?_, ?_⟩
  · intro h
    simp [cacheCall, h]
  · intro h hf hm
    rw [cacheCall_miss_ok f c k v h hf]
    have hhit : assocFind (((k, v) :: c.entries).take c.maxsize) k = some v := by
      cases hmc : c.maxsize with
      | zero => omega
      | succ n => simp [List.take_succ_cons, assocFind]
    exact ⟨rfl, rfl, by simp [cacheCall, hhit], by simp [cacheCall, hhit]⟩
  · intro h hf
    have hcc : cacheCall f c k = (.error e, c, true) := by
      simp [cacheCall, h, hf]
    rw [hcc]
    exact ⟨rfl, rfl, rfl, by rw [show ((Except.error e : Res ν), c, true).2.1 = c from rfl, hcc]⟩

/-- Witness for C5 on concrete caches: a hit, a fresh success followed by a
served repeat, and a failure that caches nothing and retries. -/
theorem c5_witness :
    ((cacheCall exF ⟨20000, [(0, 7)]⟩ 0).1 = .ok 7
      ∧ (cacheCall exF ⟨20000, [(0, 7)]⟩ 0).2.2 = false)
  ∧ ((cacheCall exF ⟨20000, []⟩ 5).1 = .ok 0 ∧ (cacheCall exF ⟨20000, []⟩ 5).2.2 = true ∧
      (cacheCall exF (cacheCall exF ⟨20000, []⟩ 5).2.1 5).1 = .ok 0 ∧
      (cacheCall exF (cacheCall exF ⟨20000, []⟩ 5).2.1 5).2.2 = false)
  ∧ ((cacheCall exFerr ⟨20000, []⟩ 5).1 = .error ⟨"TransportError", "timeout"⟩ ∧
      (cacheCall exFerr ⟨20000, []⟩ 5).2.1 = ⟨20000, []⟩ ∧
      (cacheCall exFerr ⟨20000, []⟩ 5).2.2 = true ∧
      (cacheCall exFerr (cacheCall exFerr ⟨20000, []⟩ 5).2.1 5).2.2 = true) :=
  ⟨(c5_cache_step exF ⟨20000, [(0, 7)]⟩ 0 7 ⟨"E", ""⟩).1 rfl,
   (c5_cache_step exF ⟨20000, []⟩ 5 0 ⟨"E", ""⟩).2.1 rfl rfl (by norm_num),
   (c5_cache_step exFerr ⟨20000, []⟩ 5 0 ⟨"TransportError", "timeout"⟩).2.2 rfl rfl⟩

/-! ## C6: rate limiter -/

/-- C6: over the virtual clock model of `RateLimiter.wait` with calls=2 and
period 1s: three back-to-back calls starting at any time t0 return the third
only at t0+1, hence after at least (period - epsilon) of total wall time for
every epsilon at least 0; and each of the recorded-timestamp states reached
during the three calls contains at most 2 timestamps inside any trailing
1-second window (x-1, x]. -/
theorem c6_rate_limiter (t0 ε : ℚ) (hε : 0 ≤ ε) :
    (rlCall3 t0).1 - t0 ≥ 1 - ε
  ∧ ∀ s ∈ [([] : List ℚ), (rlCall1 t0).2, (rlCall2 t0).2, (rlCall3 t0).2],
      ∀ x : ℚ, windowCount 1 x s ≤ 2 := by
  have h1 : rlCall1 t0 = (t0, [t0]) := by
    norm_num [rlCall1, rlWait]
  have h2 : rlCall2 t0 = (t0, [t0, t0]) := by
    rw [rlCall2, h1]
    norm_num [rlWait, List.filter]
  have h3 : rlCall3 t0 = (t0 + 1, [t0, t0, t0 + 1]) := by
    rw [rlCall3, h2]
    norm_num [rlWait, List.filter]
  constructor
  · rw [h3]
    simp only
    linarith
  · intro s hs x
    rw [h1, h2, h3] at hs
    simp only [List.mem_cons, List.not_mem_nil, or_false] at hs
    have hcount : ∀ l : List ℚ, windowCount 1 x l ≤ l.length := by
      intro l
      induction l with
      | nil => simp [windowCount]
      | cons a t ih =>
        simp only [windowCount, List.length_cons]
        split_ifs <;> omega
    rcases hs with rfl | rfl | rfl | rfl
    · simp [windowCount]
    · calc windowCount 1 x [t0] ≤ [t0].length := hcount [t0]
        _ ≤ 2 := by simp
    · calc windowCount 1 x [t0, t0] ≤ [t0, t0].length := hcount [t0, t0]
        _ ≤ 2 := by simp
    · simp only [windowCount]
      by_cases hA : x - 1 < t0 ∧ t0 ≤ x <;> by_cases hB : x - 1 < t0 + 1 ∧ t0 + 1 ≤ x
      · exact absurd (by linarith [hA.1, hB.2] : (1 : ℚ) < 1) (by norm_num)
      · simp [hA, hB]
      · simp [hA, hB]
      · simp [hA, hB]

/-- Witness for C6 at t0 = 0, epsilon = 0, window ending at 1/2. -/
theorem c6_witness :
    (0 : ℚ) ≤ 0
  ∧ (rlCall3 0).1 - 0 ≥ 1 - 0
  ∧ windowCount 1 (1/2) (rlCall3 0).2 ≤ 2 :=
  ⟨le_refl 0, (c6_rate_limiter 0 0 (le_refl 0)).1,
   (c6_rate_limiter 0 0 (le_refl 0)).2 (rlCall3 0).2 (by simp) (1/2)⟩
